import Mathlib

/-!
# Equipment telemetry simulators on an OPC UA address space

A verification development for the `open62541` example servers `dynamic.c`,
`dynamic2.c`, `dynamic3.c` and `dynamic4.c`.  Each server registers one periodic
callback that reads and writes nodes of the server's address space and keeps a
few `static` variables.

Modelling conventions

* `UA_Double` and `double` are the rationals `ℚ`: arithmetic is exact, there is
  no rounding, no NaN and no infinity.
* `rand()` is a sequence of natural numbers together with a read position; every
  call returns the next element.  `RAND_MAX` is a parameter.
* `sin` from `math.h` is a parameter `sin : ℚ → ℚ`.
* The address space is a finite map from node ids to values.  Reading a node that
  is absent fails and leaves the output variant untouched; writing replaces the
  value of a node that is present.
* Every callback returns the new program state together with the list of
  `UA_Server_writeValue` calls it issued, in program order.
-/

namespace Open62541

/-! ## The server's address space -/

/-- Node ids used by the four servers. -/
inductive NodeId where
  | vib
  | temp
  | press
  | alarm
  | degrade
deriving DecidableEq, Repr

/-- Content of a `UA_Variant`: empty (after `UA_Variant_init`), a scalar
`Double`, a scalar `Boolean`, or an array of `Double`. -/
inductive Variant where
  | empty
  | double (x : ℚ)
  | boolean (b : Bool)
  | doubleArray (xs : List ℚ)
deriving DecidableEq, Repr

/-- The address space: the value attribute of every node, `none` for a node that
cannot be read. -/
abbrev Store := NodeId → Option Variant

/-- One call of `UA_Server_writeValue`: the node and the value passed. -/
abbrev Write := NodeId × Variant

/-- The `UA_Server_readValue` call: on success the node's value is stored in the
output variant, on failure the output variant keeps its content. -/
def UA_Server_readValue (s : Store) (n : NodeId) (out : Variant) : Variant :=
  match s n with
  | some v => v
  | none => out

/-- The `UA_Server_writeValue` call: replaces the value of a node that exists. -/
def UA_Server_writeValue (s : Store) (n : NodeId) (v : Variant) : Store :=
  fun m => if m = n then (match s n with | some _ => some v | none => none) else s m

/-- The test `UA_Variant_hasScalarType(&v, &UA_TYPES[UA_TYPES_DOUBLE])`, returning
the scalar when it succeeds. -/
def scalarDouble : Variant → Option ℚ
  | Variant.double x => some x
  | _ => none

/-- A store in which every node is present with the given values. -/
def mkStore (vib temp press alarm degrade : Variant) : Store
  | NodeId.vib => some vib
  | NodeId.temp => some temp
  | NodeId.press => some press
  | NodeId.alarm => some alarm
  | NodeId.degrade => some degrade

/-- Whether a list of `UA_Server_writeValue` calls contains a write of node `n`. -/
def writesTo (n : NodeId) (ws : List Write) : Bool :=
  ws.any (fun w => decide (w.1 = n))

/-- The values written to node `n` by a list of `UA_Server_writeValue` calls, in
program order. -/
def valuesWritten (n : NodeId) (ws : List Write) : List Variant :=
  (ws.filter (fun w => decide (w.1 = n))).map Prod.snd

/-! ## The C library's pseudo random numbers -/

/-- State of `rand()`: the sequence of outputs and the index of the next one. -/
structure Rng where
  out : Nat → Nat
  pos : Nat

/-- One call of `rand()`. -/
def rand (g : Rng) : Nat × Rng :=
  (g.out g.pos, { out := g.out, pos := g.pos + 1 })

/-- The jitter `((rand() % 11) - 5) / 500.0` of `dynamic3.c`. -/
def vibNoise (r : Nat) : ℚ :=
  (((((r % 11 : Nat) : ℤ) - 5 : ℤ)) : ℚ) / 500

/-- The pressure noise `(rand() % 2001 - 1000) / 10000.0`. -/
def pressNoise (r : Nat) : ℚ :=
  (((((r % 2001 : Nat) : ℤ) - 1000 : ℤ)) : ℚ) / 10000

/-- The mathematical `clamp(y, lo, hi)`. -/
def clamp (y lo hi : ℚ) : ℚ := max lo (min y hi)

/-- A generator whose every output is `r`. -/
def rngConst (r : Nat) : Rng := { out := fun _ => r, pos := 0 }

/-- A function used in place of `sin` where a concrete one is needed: constant
zero. -/
def sinStub : ℚ → ℚ := fun _ => 0

/-- An address space whose vibration node holds an array of two `Double`s, as
left by a client write; the other nodes hold their start values. -/
def arrayStore : Store :=
  mkStore (Variant.doubleArray [9, 9]) (Variant.double 25) (Variant.double 1)
    (Variant.boolean false) Variant.empty

/-- An address space whose vibration node holds the scalar `Double` `x`, as left
by a client write; the other nodes hold their start values. -/
def vibStore (x : ℚ) : Store :=
  mkStore (Variant.double x) (Variant.double 25) (Variant.double 1)
    (Variant.boolean false) Variant.empty

/-- An address space without a vibration node, so that reading it fails; the
other nodes hold their start values. -/
def noVibStore : Store
  | NodeId.vib => none
  | NodeId.temp => some (Variant.double 25)
  | NodeId.press => some (Variant.double 1)
  | NodeId.alarm => some (Variant.boolean false)
  | NodeId.degrade => none

namespace Dynamic3

/-- The `static` variables of `dynamic3.c` with the address space and `rand()`. -/
structure State where
  bearingVibration : ℚ
  alarmState : Bool
  t : ℚ
  store : Store
  rng : Rng

/-- The new value of `bearingVibration` (lines 38 to 41): the value `x` read from
the node, plus drift and jitter from the `rand()` output `r`, then the two range
checks. -/
def newVibration (x : ℚ) (r : Nat) : ℚ :=
  let bv0 : ℚ := x
  let bv1 : ℚ := bv0 + (0.02 + vibNoise r)
  let bv2 : ℚ := if bv1 > 10 then 10 else bv1
  let bv3 : ℚ := if bv2 < 0 then 0 else bv2
  bv3

/-- Section 1 of `updateParameters` (vibration and alarm), entered with the
variant read from the vibration node. -/
def vibrationStep (st : State) (curVal : Variant) : State × List Write :=
  match scalarDouble curVal with
  | some x =>
    let r := (rand st.rng).1
    let g := (rand st.rng).2
    let bv3 : ℚ := newVibration x r
    let store1 := UA_Server_writeValue st.store NodeId.vib (Variant.double bv3)
    let newAlarmState : Bool := decide (bv3 ≥ 7)
    if newAlarmState ≠ st.alarmState then
      ({ bearingVibration := bv3, alarmState := newAlarmState, t := st.t,
         store := UA_Server_writeValue store1 NodeId.alarm (Variant.boolean newAlarmState),
         rng := g },
       [(NodeId.vib, Variant.double bv3), (NodeId.alarm, Variant.boolean newAlarmState)])
    else
      ({ bearingVibration := bv3, alarmState := st.alarmState, t := st.t,
         store := store1, rng := g },
       [(NodeId.vib, Variant.double bv3)])
  | none => (st, [])

/-- Sections 2 and 3 of `updateParameters` (temperature and pressure). -/
def tempPressStep (sin : ℚ → ℚ) (st : State) : State × List Write :=
  let t1 : ℚ := st.t + 0.1
  let tempValue : ℚ := 25 + 5 * sin t1
  let store1 := UA_Server_writeValue st.store NodeId.temp (Variant.double tempValue)
  let r := (rand st.rng).1
  let g := (rand st.rng).2
  let rnd : ℚ := pressNoise r
  let pressureValue : ℚ := 1 + rnd
  let store2 := UA_Server_writeValue store1 NodeId.press (Variant.double pressureValue)
  ({ bearingVibration := st.bearingVibration, alarmState := st.alarmState, t := t1,
     store := store2, rng := g },
   [(NodeId.temp, Variant.double tempValue), (NodeId.press, Variant.double pressureValue)])

/-- The callback `updateParameters` of `dynamic3.c`. -/
def updateParameters (sin : ℚ → ℚ) (st : State) : State × List Write :=
  let curVal := UA_Server_readValue st.store NodeId.vib Variant.empty
  let a := vibrationStep st curVal
  let b := tempPressStep sin a.1
  (b.1, a.2 ++ b.2)

/-- The state set up by `main` before the first callback. -/
def init (g : Rng) : State :=
  { bearingVibration := 1.2, alarmState := false, t := 0,
    store := mkStore (Variant.double 1.2) (Variant.double 25) (Variant.double 1)
      (Variant.boolean false) Variant.empty,
    rng := g }

/-- A run of callbacks; before each one, clients of the server rewrite the
address space as given by the next list element. -/
def run (sin : ℚ → ℚ) : State → List (Store → Store) → State
  | st, [] => st
  | st, f :: fs =>
    run sin (updateParameters sin { st with store := f st.store }).1 fs

end Dynamic3

/-! ## dynamic2.c -/

namespace Dynamic2

/-- The `static` variables of `dynamic2.c` with the address space and `rand()`. -/
structure State where
  bearingVibration : ℚ
  t : ℚ
  store : Store
  rng : Rng

/-- The new value of `bearingVibration` (lines 33 to 37): the value `x` read from
the node plus the drift, then the upper range check. -/
def newVibration (x : ℚ) : ℚ :=
  let bv0 : ℚ := x
  let bv1 : ℚ := bv0 + 0.02
  let bv2 : ℚ := if bv1 > 10 then 10 else bv1
  bv2

/-- Section 1 of `updateParameters` (vibration), entered with the variant read
from the vibration node. -/
def vibrationStep (st : State) (curVal : Variant) : State × List Write :=
  match scalarDouble curVal with
  | some x =>
    let bv2 : ℚ := newVibration x
    ({ bearingVibration := bv2, t := st.t,
       store := UA_Server_writeValue st.store NodeId.vib (Variant.double bv2),
       rng := st.rng },
     [(NodeId.vib, Variant.double bv2)])
  | none => (st, [])

/-- Sections 2 and 3 of `updateParameters` (temperature and pressure). -/
def tempPressStep (sin : ℚ → ℚ) (st : State) : State × List Write :=
  let t1 : ℚ := st.t + 0.1
  let tempValue : ℚ := 25 + 5 * sin t1
  let store1 := UA_Server_writeValue st.store NodeId.temp (Variant.double tempValue)
  let r := (rand st.rng).1
  let g := (rand st.rng).2
  let rnd : ℚ := pressNoise r
  let pressureValue : ℚ := 1 + rnd
  let store2 := UA_Server_writeValue store1 NodeId.press (Variant.double pressureValue)
  ({ bearingVibration := st.bearingVibration, t := t1, store := store2, rng := g },
   [(NodeId.temp, Variant.double tempValue), (NodeId.press, Variant.double pressureValue)])

/-- The callback `updateParameters` of `dynamic2.c`. -/
def updateParameters (sin : ℚ → ℚ) (st : State) : State × List Write :=
  let curVal := UA_Server_readValue st.store NodeId.vib Variant.empty
  let a := vibrationStep st curVal
  let b := tempPressStep sin a.1
  (b.1, a.2 ++ b.2)

/-- The state set up by `main` before the first callback. -/
def init (g : Rng) : State :=
  { bearingVibration := 1.2, t := 0,
    store := mkStore (Variant.double 1.2) (Variant.double 25) (Variant.double 1)
      Variant.empty Variant.empty,
    rng := g }

/-- A run of callbacks; before each one, clients of the server rewrite the
address space as given by the next list element. -/
def run (sin : ℚ → ℚ) : State → List (Store → Store) → State
  | st, [] => st
  | st, f :: fs =>
    run sin (updateParameters sin { st with store := f st.store }).1 fs

end Dynamic2

/-! ## dynamic.c -/

namespace Dynamic

/-- The `static` variables of `dynamic.c` with the address space and `rand()`. -/
structure State where
  parameterValue : ℚ
  t : ℚ
  store : Store
  rng : Rng

/-- The new value of `parameterValue` (lines 35 to 37): the value `x` read from
the node minus 0.5, then the lower range check. -/
def newParameter (x : ℚ) : ℚ :=
  let pv0 : ℚ := x
  let pv1 : ℚ := pv0 - 0.5
  let pv2 : ℚ := if pv1 < 0 then 0 else pv1
  pv2

/-- Section 1 of `updateParameters` (the degrading parameter), entered with the
variant read from the degradation node. -/
def degradeStep (st : State) (curVal : Variant) : State × List Write :=
  match scalarDouble curVal with
  | some x =>
    let pv2 : ℚ := newParameter x
    ({ parameterValue := pv2, t := st.t,
       store := UA_Server_writeValue st.store NodeId.degrade (Variant.double pv2),
       rng := st.rng },
     [(NodeId.degrade, Variant.double pv2)])
  | none => (st, [])

/-- Sections 2 and 3 of `updateParameters` (temperature and pressure). -/
def tempPressStep (sin : ℚ → ℚ) (st : State) : State × List Write :=
  let t1 : ℚ := st.t + 0.1
  let tempValue : ℚ := 25 + 5 * sin t1
  let store1 := UA_Server_writeValue st.store NodeId.temp (Variant.double tempValue)
  let r := (rand st.rng).1
  let g := (rand st.rng).2
  let rnd : ℚ := pressNoise r
  let pressureValue : ℚ := 1 + rnd
  let store2 := UA_Server_writeValue store1 NodeId.press (Variant.double pressureValue)
  ({ parameterValue := st.parameterValue, t := t1, store := store2, rng := g },
   [(NodeId.temp, Variant.double tempValue), (NodeId.press, Variant.double pressureValue)])

/-- The callback `updateParameters` of `dynamic.c`. -/
def updateParameters (sin : ℚ → ℚ) (st : State) : State × List Write :=
  let curVal := UA_Server_readValue st.store NodeId.degrade Variant.empty
  let a := degradeStep st curVal
  let b := tempPressStep sin a.1
  (b.1, a.2 ++ b.2)

/-- The state set up by `main` before the first callback. -/
def init (g : Rng) : State :=
  { parameterValue := 100, t := 0,
    store := mkStore Variant.empty (Variant.double 25) (Variant.double 1)
      Variant.empty (Variant.double 100),
    rng := g }

/-- A run of callbacks; before each one, clients of the server rewrite the
address space as given by the next list element. -/
def run (sin : ℚ → ℚ) : State → List (Store → Store) → State
  | st, [] => st
  | st, f :: fs =>
    run sin (updateParameters sin { st with store := f st.store }).1 fs

end Dynamic

/-! ## dynamic4.c -/

namespace Dynamic4

/-- The `static` variables of `dynamic4.c` (the clock `t` is a `static` local of
the callback) with the address space and `rand()`. -/
structure State where
  vib_value : ℚ
  temp_value : ℚ
  press_value : ℚ
  alarm_state : Bool
  t : ℚ
  store : Store
  rng : Rng

/-- The helper `frand`: `(double)rand() / (double)RAND_MAX`, applied to the
output of `rand()`. -/
def frand (RAND_MAX : Nat) (r : Nat) : ℚ := (r : ℚ) / (RAND_MAX : ℚ)

/-- The new value of `vib_value` (lines 59 to 62) at clock `t`, from the two
`rand()` outputs `r1` (noise) and `r2` (spike). -/
def newVibration (RAND_MAX : Nat) (sin : ℚ → ℚ) (t : ℚ) (r1 r2 : Nat) : ℚ :=
  let v0 : ℚ := 2 + 0.5 * sin (t * 3.1) + 0.2 * (frand RAND_MAX r1 - 0.5)
  let v1 : ℚ := if frand RAND_MAX r2 < 0.001 then v0 + 5 else v0
  let v2 : ℚ := if v1 < 0 then 0 else v1
  let v3 : ℚ := if v2 > 15 then 15 else v2
  v3

/-- Section 1 of `update_cb` with the alarm check (vibration), entered after the
clock has advanced. -/
def vibrationStep (RAND_MAX : Nat) (sin : ℚ → ℚ) (st : State) : State × List Write :=
  let r1 := (rand st.rng).1
  let g1 := (rand st.rng).2
  let r2 := (rand g1).1
  let g2 := (rand g1).2
  let v3 : ℚ := newVibration RAND_MAX sin st.t r1 r2
  let store1 := UA_Server_writeValue st.store NodeId.vib (Variant.double v3)
  let newAlarm : Bool := decide (v3 ≥ 7)
  if newAlarm ≠ st.alarm_state then
    ({ vib_value := v3, temp_value := st.temp_value, press_value := st.press_value,
       alarm_state := newAlarm, t := st.t,
       store := UA_Server_writeValue store1 NodeId.alarm (Variant.boolean newAlarm),
       rng := g2 },
     [(NodeId.vib, Variant.double v3), (NodeId.alarm, Variant.boolean newAlarm)])
  else
    ({ vib_value := v3, temp_value := st.temp_value, press_value := st.press_value,
       alarm_state := st.alarm_state, t := st.t, store := store1, rng := g2 },
     [(NodeId.vib, Variant.double v3)])

/-- Sections 2 and 3 of `update_cb` (temperature and pressure). -/
def tempPressStep (RAND_MAX : Nat) (sin : ℚ → ℚ) (st : State) : State × List Write :=
  let r1 := (rand st.rng).1
  let g1 := (rand st.rng).2
  let temp0 : ℚ := 60 + 10 * sin (st.t * 0.1) + 0.5 * (frand RAND_MAX r1 - 0.5)
  let r2 := (rand g1).1
  let g2 := (rand g1).2
  let temp1 : ℚ := if frand RAND_MAX r2 < 0.001 then temp0 + 20 else temp0
  let store1 := UA_Server_writeValue st.store NodeId.temp (Variant.double temp1)
  let r3 := (rand g2).1
  let g3 := (rand g2).2
  let press : ℚ := 1 + 0.1 * sin (st.t * 0.7) + 0.02 * (frand RAND_MAX r3 - 0.5)
  let store2 := UA_Server_writeValue store1 NodeId.press (Variant.double press)
  ({ vib_value := st.vib_value, temp_value := temp1, press_value := press,
     alarm_state := st.alarm_state, t := st.t, store := store2, rng := g3 },
   [(NodeId.temp, Variant.double temp1), (NodeId.press, Variant.double press)])

/-- The callback `update_cb` of `dynamic4.c`. -/
def update_cb (RAND_MAX : Nat) (sin : ℚ → ℚ) (st : State) : State × List Write :=
  let st0 : State := { st with t := st.t + 0.1 }
  let a := vibrationStep RAND_MAX sin st0
  let b := tempPressStep RAND_MAX sin a.1
  (b.1, a.2 ++ b.2)

/-- The state set up by `main` before the first callback. -/
def init (g : Rng) : State :=
  { vib_value := 1.2, temp_value := 60, press_value := 1, alarm_state := false, t := 0,
    store := mkStore (Variant.double 1.2) (Variant.double 60) (Variant.double 1)
      (Variant.boolean false) Variant.empty,
    rng := g }

/-- A run of callbacks; before each one, clients of the server rewrite the
address space as given by the next list element. -/
def run (RAND_MAX : Nat) (sin : ℚ → ℚ) : State → List (Store → Store) → State
  | st, [] => st
  | st, f :: fs =>
    run RAND_MAX sin (update_cb RAND_MAX sin { st with store := f st.store }).1 fs

end Dynamic4

end Open62541

namespace Open62541
namespace Dynamic3

theorem vibrationStep_none (st : State) (cur : Variant) (h : scalarDouble cur = none) :
    vibrationStep st cur = (st, []) := by
  unfold vibrationStep
  rw [h]

theorem vibrationStep_bearingVibration (st : State) (cur : Variant) (x : ℚ)
    (h : scalarDouble cur = some x) :
    (vibrationStep st cur).1.bearingVibration = newVibration x (st.rng.out st.rng.pos) := by
  unfold vibrationStep
  rw [h]
  simp only [rand]
  split_ifs <;> rfl

theorem vibrationStep_alarmState (st : State) (cur : Variant) (x : ℚ)
    (h : scalarDouble cur = some x) :
    (vibrationStep st cur).1.alarmState =
      decide (newVibration x (st.rng.out st.rng.pos) ≥ 7) := by
  unfold vibrationStep
  rw [h]
  simp only [rand]
  split_ifs with h1
  · rfl
  · simp only [ne_eq, not_not] at h1
    exact h1.symm

theorem vibrationStep_writes (st : State) (cur : Variant) (x : ℚ)
    (h : scalarDouble cur = some x) :
    (vibrationStep st cur).2 =
      (NodeId.vib, Variant.double (newVibration x (st.rng.out st.rng.pos))) ::
        (if decide (newVibration x (st.rng.out st.rng.pos) ≥ 7) ≠ st.alarmState then
          [(NodeId.alarm, Variant.boolean (decide (newVibration x (st.rng.out st.rng.pos) ≥ 7)))]
         else []) := by
  unfold vibrationStep
  rw [h]
  simp only [rand]
  split_ifs <;> rfl

theorem updateParameters_bearingVibration (sin : ℚ → ℚ) (st : State) :
    (updateParameters sin st).1.bearingVibration =
      (vibrationStep st (UA_Server_readValue st.store NodeId.vib Variant.empty)).1.bearingVibration :=
  rfl

theorem updateParameters_alarmState (sin : ℚ → ℚ) (st : State) :
    (updateParameters sin st).1.alarmState =
      (vibrationStep st (UA_Server_readValue st.store NodeId.vib Variant.empty)).1.alarmState :=
  rfl

theorem vibrationStep_inv (st : State) (cur : Variant)
    (h : st.alarmState = decide (st.bearingVibration ≥ 7)) :
    (vibrationStep st cur).1.alarmState =
      decide ((vibrationStep st cur).1.bearingVibration ≥ 7) := by
  cases hc : scalarDouble cur with
  | none => rw [vibrationStep_none st cur hc]; exact h
  | some x => rw [vibrationStep_alarmState st cur x hc, vibrationStep_bearingVibration st cur x hc]

theorem run_inv (sin : ℚ → ℚ) (fs : List (Store → Store)) :
    ∀ st : State, st.alarmState = decide (st.bearingVibration ≥ 7) →
      (run sin st fs).alarmState = decide ((run sin st fs).bearingVibration ≥ 7) := by
  induction fs with
  | nil => intro st h; exact h
  | cons f fs ih =>
    intro st h
    simp only [run]
    apply ih
    rw [updateParameters_alarmState, updateParameters_bearingVibration]
    exact vibrationStep_inv _ _ h

/-- C1: in `dynamic3.c`, from the initial state, after every sequence of callbacks
(arbitrary client writes to the address space before each callback, arbitrary
`rand()` outputs) the flag `alarmState` equals `bearingVibration >= 7.0`. -/
theorem alarm_invariant_after_every_tick (sin : ℚ → ℚ) (g : Rng)
    (fs : List (Store → Store)) :
    (run sin (init g) fs).alarmState = decide ((run sin (init g) fs).bearingVibration ≥ 7) := by
  apply run_inv
  simp only [init]
  norm_num

end Dynamic3
end Open62541

namespace Open62541

theorem writesTo_append (n : NodeId) (a b : List Write) :
    writesTo n (a ++ b) = (writesTo n a || writesTo n b) := by
  simp [writesTo]

theorem valuesWritten_append (n : NodeId) (a b : List Write) :
    valuesWritten n (a ++ b) = valuesWritten n a ++ valuesWritten n b := by
  simp [valuesWritten]

namespace Dynamic3

theorem tempPressStep_writes (sin : ℚ → ℚ) (st : State) :
    (tempPressStep sin st).2 =
      [(NodeId.temp, Variant.double (25 + 5 * sin (st.t + 0.1))),
       (NodeId.press, Variant.double (1 + pressNoise (st.rng.out st.rng.pos)))] := rfl

theorem updateParameters_writes (sin : ℚ → ℚ) (st : State) :
    (updateParameters sin st).2 =
      (vibrationStep st (UA_Server_readValue st.store NodeId.vib Variant.empty)).2 ++
      (tempPressStep sin
        (vibrationStep st (UA_Server_readValue st.store NodeId.vib Variant.empty)).1).2 := rfl

theorem writesTo_alarm_updateParameters (sin : ℚ → ℚ) (st : State) :
    writesTo NodeId.alarm (updateParameters sin st).2 =
      writesTo NodeId.alarm
        (vibrationStep st (UA_Server_readValue st.store NodeId.vib Variant.empty)).2 := by
  rw [updateParameters_writes, writesTo_append, tempPressStep_writes]
  simp [writesTo]

theorem valuesWritten_alarm_updateParameters (sin : ℚ → ℚ) (st : State) :
    valuesWritten NodeId.alarm (updateParameters sin st).2 =
      valuesWritten NodeId.alarm
        (vibrationStep st (UA_Server_readValue st.store NodeId.vib Variant.empty)).2 := by
  rw [updateParameters_writes, valuesWritten_append, tempPressStep_writes]
  simp [valuesWritten]

/-- The alarm part of a callback of `dynamic3.c` from a state in which the flag
agrees with the vibration. -/
theorem alarm_write_spec (sin : ℚ → ℚ) (st : State)
    (hinv : st.alarmState = decide (st.bearingVibration ≥ 7)) :
    (writesTo NodeId.alarm (updateParameters sin st).2 = true ↔
        decide ((updateParameters sin st).1.bearingVibration ≥ 7) ≠ st.alarmState) ∧
    (writesTo NodeId.alarm (updateParameters sin st).2 = true →
        valuesWritten NodeId.alarm (updateParameters sin st).2 =
          [Variant.boolean (updateParameters sin st).1.alarmState] ∧
        (updateParameters sin st).1.alarmState =
          decide ((updateParameters sin st).1.bearingVibration ≥ 7)) ∧
    (writesTo NodeId.alarm (updateParameters sin st).2 = false →
        (updateParameters sin st).1.alarmState = st.alarmState) := by
  rw [writesTo_alarm_updateParameters, valuesWritten_alarm_updateParameters,
    updateParameters_bearingVibration, updateParameters_alarmState]
  cases hc : scalarDouble (UA_Server_readValue st.store NodeId.vib Variant.empty) with
  | none =>
    rw [vibrationStep_none st _ hc]
    simp [writesTo, hinv]
  | some x =>
    rw [vibrationStep_writes st _ x hc, vibrationStep_bearingVibration st _ x hc,
      vibrationStep_alarmState st _ x hc]
    by_cases hd : decide (newVibration x (st.rng.out st.rng.pos) ≥ 7) = st.alarmState
    · simp [writesTo, valuesWritten, hd]
    · simp [writesTo, valuesWritten, hd]

end Dynamic3
end Open62541

namespace Open62541
namespace Dynamic4

theorem vibrationStep_vib_value (RAND_MAX : Nat) (sin : ℚ → ℚ) (st : State) :
    (vibrationStep RAND_MAX sin st).1.vib_value =
      newVibration RAND_MAX sin st.t (st.rng.out st.rng.pos) (st.rng.out (st.rng.pos + 1)) := by
  unfold vibrationStep
  simp only [rand]
  split_ifs <;> rfl

theorem vibrationStep_alarm_state (RAND_MAX : Nat) (sin : ℚ → ℚ) (st : State) :
    (vibrationStep RAND_MAX sin st).1.alarm_state =
      decide (newVibration RAND_MAX sin st.t (st.rng.out st.rng.pos)
        (st.rng.out (st.rng.pos + 1)) ≥ 7) := by
  unfold vibrationStep
  simp only [rand]
  split_ifs with h1
  · rfl
  · simp only [ne_eq, not_not] at h1
    exact h1.symm

theorem d4_vibrationStep_writes (RAND_MAX : Nat) (sin : ℚ → ℚ) (st : State) :
    (vibrationStep RAND_MAX sin st).2 =
      (NodeId.vib, Variant.double (newVibration RAND_MAX sin st.t (st.rng.out st.rng.pos)
          (st.rng.out (st.rng.pos + 1)))) ::
        (if decide (newVibration RAND_MAX sin st.t (st.rng.out st.rng.pos)
            (st.rng.out (st.rng.pos + 1)) ≥ 7) ≠ st.alarm_state then
          [(NodeId.alarm, Variant.boolean (decide (newVibration RAND_MAX sin st.t
            (st.rng.out st.rng.pos) (st.rng.out (st.rng.pos + 1)) ≥ 7)))]
         else []) := by
  unfold vibrationStep
  simp only [rand]
  split_ifs <;> rfl

theorem update_cb_vib_value (RAND_MAX : Nat) (sin : ℚ → ℚ) (st : State) :
    (update_cb RAND_MAX sin st).1.vib_value =
      newVibration RAND_MAX sin (st.t + 0.1) (st.rng.out st.rng.pos)
        (st.rng.out (st.rng.pos + 1)) := by
  unfold update_cb
  simp only []
  exact vibrationStep_vib_value RAND_MAX sin _

theorem update_cb_alarm_state (RAND_MAX : Nat) (sin : ℚ → ℚ) (st : State) :
    (update_cb RAND_MAX sin st).1.alarm_state =
      decide (newVibration RAND_MAX sin (st.t + 0.1) (st.rng.out st.rng.pos)
        (st.rng.out (st.rng.pos + 1)) ≥ 7) := by
  unfold update_cb
  simp only []
  exact vibrationStep_alarm_state RAND_MAX sin _

theorem update_cb_writes (RAND_MAX : Nat) (sin : ℚ → ℚ) (st : State) :
    (update_cb RAND_MAX sin st).2 =
      (vibrationStep RAND_MAX sin { st with t := st.t + 0.1 }).2 ++
      (tempPressStep RAND_MAX sin (vibrationStep RAND_MAX sin { st with t := st.t + 0.1 }).1).2 :=
  rfl

theorem writesTo_alarm_tempPressStep (RAND_MAX : Nat) (sin : ℚ → ℚ) (st : State) :
    writesTo NodeId.alarm (tempPressStep RAND_MAX sin st).2 = false ∧
      valuesWritten NodeId.alarm (tempPressStep RAND_MAX sin st).2 = [] := by
  unfold tempPressStep
  simp [writesTo, valuesWritten]

theorem d4_alarm_write_spec (RAND_MAX : Nat) (sin : ℚ → ℚ) (st : State) :
    (writesTo NodeId.alarm (update_cb RAND_MAX sin st).2 = true ↔
        decide ((update_cb RAND_MAX sin st).1.vib_value ≥ 7) ≠ st.alarm_state) ∧
    (writesTo NodeId.alarm (update_cb RAND_MAX sin st).2 = true →
        valuesWritten NodeId.alarm (update_cb RAND_MAX sin st).2 =
          [Variant.boolean (update_cb RAND_MAX sin st).1.alarm_state] ∧
        (update_cb RAND_MAX sin st).1.alarm_state =
          decide ((update_cb RAND_MAX sin st).1.vib_value ≥ 7)) ∧
    (writesTo NodeId.alarm (update_cb RAND_MAX sin st).2 = false →
        (update_cb RAND_MAX sin st).1.alarm_state = st.alarm_state) := by
  rw [update_cb_writes, writesTo_append, valuesWritten_append,
    (writesTo_alarm_tempPressStep RAND_MAX sin _).1,
    (writesTo_alarm_tempPressStep RAND_MAX sin _).2,
    update_cb_vib_value, update_cb_alarm_state, d4_vibrationStep_writes]
  simp only [Bool.or_false, List.append_nil]
  by_cases hd : decide (newVibration RAND_MAX sin (st.t + 0.1) (st.rng.out st.rng.pos)
      (st.rng.out (st.rng.pos + 1)) ≥ 7) = st.alarm_state
  · simp [writesTo, valuesWritten, hd]
  · simp [writesTo, valuesWritten, hd]

end Dynamic4

/-- C2: in `dynamic3.c` (at every state reached from the initial one, whatever the
address space holds before the callback) and in `dynamic4.c` (at every state), a
callback writes the alarm node exactly when `vibration >= 7.0`, evaluated on the
vibration of that callback, differs from the alarm flag held before it; the only
value it then writes is the new flag, which equals that comparison; and without
an alarm write the flag keeps its value. -/
theorem alarm_written_iff_changed (RAND_MAX : Nat) (sin : ℚ → ℚ) (g : Rng)
    (fs : List (Store → Store)) (s : Store) (st4 : Dynamic4.State) :
    ((writesTo NodeId.alarm
          (Dynamic3.updateParameters sin
            { Dynamic3.run sin (Dynamic3.init g) fs with store := s }).2 = true ↔
        decide ((Dynamic3.updateParameters sin
            { Dynamic3.run sin (Dynamic3.init g) fs with store := s }).1.bearingVibration ≥ 7) ≠
          (Dynamic3.run sin (Dynamic3.init g) fs).alarmState) ∧
      (writesTo NodeId.alarm
          (Dynamic3.updateParameters sin
            { Dynamic3.run sin (Dynamic3.init g) fs with store := s }).2 = true →
        valuesWritten NodeId.alarm
            (Dynamic3.updateParameters sin
              { Dynamic3.run sin (Dynamic3.init g) fs with store := s }).2 =
          [Variant.boolean (Dynamic3.updateParameters sin
            { Dynamic3.run sin (Dynamic3.init g) fs with store := s }).1.alarmState] ∧
        (Dynamic3.updateParameters sin
            { Dynamic3.run sin (Dynamic3.init g) fs with store := s }).1.alarmState =
          decide ((Dynamic3.updateParameters sin
            { Dynamic3.run sin (Dynamic3.init g) fs with store := s }).1.bearingVibration ≥ 7)) ∧
      (writesTo NodeId.alarm
          (Dynamic3.updateParameters sin
            { Dynamic3.run sin (Dynamic3.init g) fs with store := s }).2 = false →
        (Dynamic3.updateParameters sin
            { Dynamic3.run sin (Dynamic3.init g) fs with store := s }).1.alarmState =
          (Dynamic3.run sin (Dynamic3.init g) fs).alarmState)) ∧
    ((writesTo NodeId.alarm (Dynamic4.update_cb RAND_MAX sin st4).2 = true ↔
        decide ((Dynamic4.update_cb RAND_MAX sin st4).1.vib_value ≥ 7) ≠ st4.alarm_state) ∧
      (writesTo NodeId.alarm (Dynamic4.update_cb RAND_MAX sin st4).2 = true →
        valuesWritten NodeId.alarm (Dynamic4.update_cb RAND_MAX sin st4).2 =
          [Variant.boolean (Dynamic4.update_cb RAND_MAX sin st4).1.alarm_state] ∧
        (Dynamic4.update_cb RAND_MAX sin st4).1.alarm_state =
          decide ((Dynamic4.update_cb RAND_MAX sin st4).1.vib_value ≥ 7)) ∧
      (writesTo NodeId.alarm (Dynamic4.update_cb RAND_MAX sin st4).2 = false →
        (Dynamic4.update_cb RAND_MAX sin st4).1.alarm_state = st4.alarm_state)) := by
  refine ⟨?_, Dynamic4.d4_alarm_write_spec RAND_MAX sin st4⟩
  have hinv := Dynamic3.run_inv sin fs (Dynamic3.init g) (by simp only [Dynamic3.init]; norm_num)
  exact Dynamic3.alarm_write_spec sin
    { Dynamic3.run sin (Dynamic3.init g) fs with store := s } hinv

end Open62541

namespace Open62541

theorem scalarDouble_eq_some_iff (v : Variant) (x : ℚ) :
    scalarDouble v = some x ↔ v = Variant.double x := by
  cases v <;> simp [scalarDouble]

theorem scalarDouble_read_eq_some_iff (s : Store) (x : ℚ) :
    scalarDouble (UA_Server_readValue s NodeId.vib Variant.empty) = some x ↔
      s NodeId.vib = some (Variant.double x) := by
  unfold UA_Server_readValue
  cases h : s NodeId.vib with
  | none => simp [scalarDouble]
  | some v => simp [scalarDouble_eq_some_iff]

namespace Dynamic3

theorem writesTo_tempPress (sin : ℚ → ℚ) (st : State) :
    writesTo NodeId.temp (tempPressStep sin st).2 = true ∧
    writesTo NodeId.press (tempPressStep sin st).2 = true ∧
    writesTo NodeId.vib (tempPressStep sin st).2 = false ∧
    writesTo NodeId.alarm (tempPressStep sin st).2 = false := by
  rw [tempPressStep_writes]
  simp [writesTo]

/-- C3 (as amended): every callback of `dynamic3.c` writes the temperature node
and the pressure node, whatever the address space holds; it writes the vibration
node exactly when the vibration node holds a scalar `Double`. -/
theorem temp_press_written_vib_iff_scalar (sin : ℚ → ℚ) (st : State) :
    writesTo NodeId.temp (updateParameters sin st).2 = true ∧
    writesTo NodeId.press (updateParameters sin st).2 = true ∧
    (writesTo NodeId.vib (updateParameters sin st).2 = true ↔
      ∃ x, st.store NodeId.vib = some (Variant.double x)) := by
  rw [updateParameters_writes]
  simp only [writesTo_append, (writesTo_tempPress sin _).1, (writesTo_tempPress sin _).2.1,
    (writesTo_tempPress sin _).2.2.1, Bool.or_true, Bool.or_false, true_and]
  cases hc : scalarDouble (UA_Server_readValue st.store NodeId.vib Variant.empty) with
  | none =>
    rw [vibrationStep_none st _ hc]
    have hn : ¬ ∃ x, st.store NodeId.vib = some (Variant.double x) := by
      rintro ⟨x, hx⟩
      rw [(scalarDouble_read_eq_some_iff st.store x).2 hx] at hc
      exact Option.noConfusion hc
    simp [writesTo, hn]
  | some x =>
    rw [vibrationStep_writes st _ x hc]
    have hx := (scalarDouble_read_eq_some_iff st.store x).1 hc
    have hex : ∃ y, st.store NodeId.vib = some (Variant.double y) := ⟨x, hx⟩
    simp [writesTo, hex]

/-- C3 (counterexample): with an array of `Double`s in the vibration node, the
first callback of `dynamic3.c` issues no write of the vibration node. -/
theorem vib_not_written_on_array :
    writesTo NodeId.vib
      (updateParameters sinStub { init (rngConst 5) with store := arrayStore }).2 = false := by
  rw [updateParameters_writes, writesTo_append, (writesTo_tempPress sinStub _).2.2.1]
  rw [vibrationStep_none _ _ (by rfl)]
  rfl

end Dynamic3
end Open62541

namespace Open62541

theorem vibNoise_eq (r : Nat) : vibNoise r = (((r % 11 : Nat) : ℚ) - 5) / 500 := by
  unfold vibNoise
  push_cast
  rfl

theorem vibNoise_bounds (r : Nat) : -0.01 ≤ vibNoise r ∧ vibNoise r ≤ 0.01 := by
  rw [vibNoise_eq]
  have h1 : ((r % 11 : Nat) : ℚ) ≤ 10 := by
    have : r % 11 ≤ 10 := by omega
    exact_mod_cast this
  have h0 : (0 : ℚ) ≤ ((r % 11 : Nat) : ℚ) := Nat.cast_nonneg _
  constructor <;> norm_num <;> linarith

theorem writeValue_same (s : Store) (n : NodeId) (u v : Variant) (h : s n = some u) :
    UA_Server_writeValue s n v n = some v := by
  unfold UA_Server_writeValue
  simp [h]

theorem writeValue_other (s : Store) (n m : NodeId) (v : Variant) (h : m ≠ n) :
    UA_Server_writeValue s n v m = s m := by
  unfold UA_Server_writeValue
  simp [h]

namespace Dynamic3

theorem newVibration_eq_clamp (x : ℚ) (r : Nat) :
    newVibration x r = clamp (x + 0.02 + vibNoise r) 0 10 := by
  unfold newVibration clamp
  simp only [max_def, min_def]
  split_ifs <;> first | rfl | linarith

theorem newVibration_range (x : ℚ) (r : Nat) :
    0 ≤ newVibration x r ∧ newVibration x r ≤ 10 := by
  rw [newVibration_eq_clamp]
  unfold clamp
  exact ⟨le_max_left _ _, max_le (by norm_num) (min_le_right _ _)⟩

theorem tempPressStep_store_vib (sin : ℚ → ℚ) (st : State) :
    (tempPressStep sin st).1.store NodeId.vib = st.store NodeId.vib := by
  unfold tempPressStep
  simp only []
  rw [writeValue_other _ _ _ _ (by decide), writeValue_other _ _ _ _ (by decide)]

theorem vibrationStep_store_vib (st : State) (cur : Variant) (x : ℚ) (u : Variant)
    (h : scalarDouble cur = some x) (hu : st.store NodeId.vib = some u) :
    (vibrationStep st cur).1.store NodeId.vib =
      some (Variant.double (newVibration x (st.rng.out st.rng.pos))) := by
  unfold vibrationStep
  rw [h]
  simp only [rand]
  split_ifs
  · simp only []
    rw [writeValue_other _ _ _ _ (by decide)]
    exact writeValue_same _ _ u _ hu
  · exact writeValue_same _ _ u _ hu

theorem valuesWritten_vib_updateParameters (sin : ℚ → ℚ) (st : State) :
    valuesWritten NodeId.vib (updateParameters sin st).2 =
      valuesWritten NodeId.vib
        (vibrationStep st (UA_Server_readValue st.store NodeId.vib Variant.empty)).2 := by
  rw [updateParameters_writes, valuesWritten_append, tempPressStep_writes]
  simp [valuesWritten]

theorem valuesWritten_vib_vibrationStep (st : State) (cur : Variant) (x : ℚ)
    (h : scalarDouble cur = some x) :
    valuesWritten NodeId.vib (vibrationStep st cur).2 =
      [Variant.double (newVibration x (st.rng.out st.rng.pos))] := by
  rw [vibrationStep_writes st cur x h]
  split_ifs <;> simp [valuesWritten]

/-- The vibration part of a callback of `dynamic3.c` that reads the scalar
`Double` `x` from the vibration node. -/
theorem updateParameters_of_scalar (sin : ℚ → ℚ) (st : State) (x : ℚ)
    (h : st.store NodeId.vib = some (Variant.double x)) :
    (updateParameters sin st).1.bearingVibration = newVibration x (st.rng.out st.rng.pos) ∧
    (updateParameters sin st).1.alarmState =
      decide (newVibration x (st.rng.out st.rng.pos) ≥ 7) ∧
    valuesWritten NodeId.vib (updateParameters sin st).2 =
      [Variant.double (newVibration x (st.rng.out st.rng.pos))] ∧
    (updateParameters sin st).1.store NodeId.vib =
      some (Variant.double (newVibration x (st.rng.out st.rng.pos))) := by
  have hc := (scalarDouble_read_eq_some_iff st.store x).2 h
  refine ⟨?_, ?_, ?_, ?_⟩
  · rw [updateParameters_bearingVibration]
    exact vibrationStep_bearingVibration st _ x hc
  · rw [updateParameters_alarmState]
    exact vibrationStep_alarmState st _ x hc
  · rw [valuesWritten_vib_updateParameters]
    exact valuesWritten_vib_vibrationStep st _ x hc
  · show (tempPressStep sin _).1.store NodeId.vib = _
    rw [tempPressStep_store_vib]
    exact vibrationStep_store_vib st _ x _ hc h

end Dynamic3
end Open62541

namespace Open62541

namespace Dynamic3

theorem vibrationStep_range (st : State) (cur : Variant)
    (h : 0 ≤ st.bearingVibration ∧ st.bearingVibration ≤ 10) :
    0 ≤ (vibrationStep st cur).1.bearingVibration ∧
      (vibrationStep st cur).1.bearingVibration ≤ 10 := by
  cases hc : scalarDouble cur with
  | none => rw [vibrationStep_none st cur hc]; exact h
  | some x =>
    rw [vibrationStep_bearingVibration st cur x hc]
    exact newVibration_range x _

theorem run_range (sin : ℚ → ℚ) (fs : List (Store → Store)) :
    ∀ st : State, (0 ≤ st.bearingVibration ∧ st.bearingVibration ≤ 10) →
      0 ≤ (run sin st fs).bearingVibration ∧ (run sin st fs).bearingVibration ≤ 10 := by
  induction fs with
  | nil => intro st h; exact h
  | cons f fs ih =>
    intro st h
    simp only [run]
    apply ih
    rw [updateParameters_bearingVibration]
    exact vibrationStep_range _ _ h

end Dynamic3

namespace Dynamic4

theorem d4_newVibration_range (RAND_MAX : Nat) (sin : ℚ → ℚ) (t : ℚ) (r1 r2 : Nat) :
    0 ≤ newVibration RAND_MAX sin t r1 r2 ∧ newVibration RAND_MAX sin t r1 r2 ≤ 15 := by
  unfold newVibration
  simp only []
  generalize 2 + 0.5 * sin (t * 3.1) + 0.2 * (frand RAND_MAX r1 - 0.5) = v0
  constructor <;> split_ifs <;> linarith

end Dynamic4

/-- C5: the vibration stays in the clamp range.  In `dynamic3.c`,
`bearingVibration` lies in `[0, 10]` after every sequence of callbacks from the
initial state, whatever clients wrote to the address space before each callback
and whatever `rand()` returned; in `dynamic4.c`, `vib_value` lies in `[0, 15]`
after every callback, from every state. -/
theorem vibration_within_clamp_range (RAND_MAX : Nat) (sin : ℚ → ℚ) (g : Rng)
    (fs : List (Store → Store)) (st4 : Dynamic4.State) :
    (0 ≤ (Dynamic3.run sin (Dynamic3.init g) fs).bearingVibration ∧
      (Dynamic3.run sin (Dynamic3.init g) fs).bearingVibration ≤ 10) ∧
    (0 ≤ (Dynamic4.update_cb RAND_MAX sin st4).1.vib_value ∧
      (Dynamic4.update_cb RAND_MAX sin st4).1.vib_value ≤ 15) := by
  constructor
  · apply Dynamic3.run_range
    simp only [Dynamic3.init]
    norm_num
  · rw [Dynamic4.update_cb_vib_value]
    exact Dynamic4.d4_newVibration_range RAND_MAX sin _ _ _

namespace Dynamic2

theorem d2_vibrationStep_none (st : State) (cur : Variant) (h : scalarDouble cur = none) :
    vibrationStep st cur = (st, []) := by
  unfold vibrationStep
  rw [h]

theorem d2_tempPressStep_writes (sin : ℚ → ℚ) (st : State) :
    (tempPressStep sin st).2 =
      [(NodeId.temp, Variant.double (25 + 5 * sin (st.t + 0.1))),
       (NodeId.press, Variant.double (1 + pressNoise (st.rng.out st.rng.pos)))] := rfl

end Dynamic2
end Open62541

namespace Open62541
namespace Dynamic3

/-- C7 (as amended): in `dynamic3.c`, when the read of the vibration node fails
or yields something other than a scalar `Double`, the callback skips the
vibration section: `bearingVibration` and `alarmState` keep their values, no
drift is applied, the clock advances, and the only writes of the callback are
those of the temperature and the pressure. -/
theorem vibration_section_skipped_without_scalar (sin : ℚ → ℚ) (st : State)
    (h : ¬ ∃ x, st.store NodeId.vib = some (Variant.double x)) :
    (updateParameters sin st).1.bearingVibration = st.bearingVibration ∧
    (updateParameters sin st).1.alarmState = st.alarmState ∧
    (updateParameters sin st).1.t = st.t + 0.1 ∧
    (updateParameters sin st).2 =
      [(NodeId.temp, Variant.double (25 + 5 * sin (st.t + 0.1))),
       (NodeId.press, Variant.double (1 + pressNoise (st.rng.out st.rng.pos)))] := by
  have hc : scalarDouble (UA_Server_readValue st.store NodeId.vib Variant.empty) = none := by
    cases hs : scalarDouble (UA_Server_readValue st.store NodeId.vib Variant.empty) with
    | none => rfl
    | some x => exact absurd ⟨x, (scalarDouble_read_eq_some_iff st.store x).1 hs⟩ h
  unfold updateParameters
  simp only []
  rw [vibrationStep_none st _ hc]
  exact ⟨rfl, rfl, rfl, rfl⟩

/-- C7 (witness): the first callback from the initial state when the vibration
node cannot be read. -/
theorem vibration_section_skipped_without_scalar_witness :
    (¬ ∃ x, ({ init (rngConst 5) with store := noVibStore } : State).store NodeId.vib =
      some (Variant.double x)) ∧
    (updateParameters sinStub { init (rngConst 5) with store := noVibStore }).1.bearingVibration
      = 1.2 :=
  ⟨by rintro ⟨x, hx⟩; exact Option.noConfusion hx,
   (vibration_section_skipped_without_scalar sinStub
      { init (rngConst 5) with store := noVibStore }
      (by rintro ⟨x, hx⟩; exact Option.noConfusion hx)).1⟩

/-- C7 (counterexample): from the initial state (`bearingVibration = 1.2`) with a
vibration node holding an array of `Double`s, the callback leaves `bearingVibration` at
1.2 and issues no write of the vibration node, while the drift recurrence on the
last known value gives a value of at least 1.21 for every `rand()` output. -/
theorem no_drift_when_section_skipped :
    (updateParameters sinStub
      { init (rngConst 5) with store := arrayStore }).1.bearingVibration = 1.2 ∧
    writesTo NodeId.vib
      (updateParameters sinStub { init (rngConst 5) with store := arrayStore }).2 = false ∧
    (∀ r : Nat, (updateParameters sinStub
        { init (rngConst 5) with store := arrayStore }).1.bearingVibration <
      clamp ((init (rngConst 5)).bearingVibration + 0.02 + vibNoise r) 0 10) := by
  have hc : scalarDouble (UA_Server_readValue
      ({ init (rngConst 5) with store := arrayStore } : State).store NodeId.vib Variant.empty)
      = none := rfl
  have hbv : (updateParameters sinStub
      { init (rngConst 5) with store := arrayStore }).1.bearingVibration = 1.2 := by
    rw [updateParameters_bearingVibration, vibrationStep_none _ _ hc]
    rfl
  refine ⟨hbv, ?_, ?_⟩
  · rw [updateParameters_writes, writesTo_append, (writesTo_tempPress sinStub _).2.2.1,
      vibrationStep_none _ _ hc]
    rfl
  · intro r
    rw [hbv]
    have hb := vibNoise_bounds r
    have hi : (init (rngConst 5)).bearingVibration = 1.2 := rfl
    rw [hi]
    unfold clamp
    apply lt_max_of_lt_right
    apply lt_min
    · norm_num at hb ⊢; linarith [hb.1]
    · norm_num

/-- C10: in `dynamic3.c`, when the vibration node holds the `Double` 9.0 at the
start of a callback, then for every previous `bearingVibration`, every previous
`alarmState` and every `rand()` output, `bearingVibration` lies in
`[9.01, 9.03]` after the callback, it is the value written to the vibration
node, and `alarmState` is true. -/
theorem external_nine_is_base_and_alarms (sin : ℚ → ℚ) (st : State)
    (h : st.store NodeId.vib = some (Variant.double 9)) :
    9.01 ≤ (updateParameters sin st).1.bearingVibration ∧
    (updateParameters sin st).1.bearingVibration ≤ 9.03 ∧
    (updateParameters sin st).1.alarmState = true ∧
    valuesWritten NodeId.vib (updateParameters sin st).2 =
      [Variant.double (updateParameters sin st).1.bearingVibration] := by
  have key := updateParameters_of_scalar sin st 9 h
  have hb := vibNoise_bounds (st.rng.out st.rng.pos)
  have hv : newVibration 9 (st.rng.out st.rng.pos) = 9 + 0.02 + vibNoise (st.rng.out st.rng.pos) := by
    unfold newVibration
    simp only []
    norm_num at hb ⊢
    split_ifs <;> first | rfl | linarith [hb.1, hb.2]
  rw [key.1, key.2.1, key.2.2.1, hv]
  norm_num at hb ⊢
  refine ⟨by linarith [hb.1], by linarith [hb.2], by linarith [hb.1]⟩

/-- C10 (witness): a state with `bearingVibration = 3` whose vibration node was
set to 9.0 by a client. -/
theorem external_nine_is_base_and_alarms_witness :
    ({ init (rngConst 0) with bearingVibration := 3, store := vibStore 9 } : State).store
        NodeId.vib = some (Variant.double 9) ∧
    (updateParameters sinStub
      { init (rngConst 0) with bearingVibration := 3, store := vibStore 9 }).1.alarmState = true :=
  ⟨rfl, (external_nine_is_base_and_alarms sinStub
      { init (rngConst 0) with bearingVibration := 3, store := vibStore 9 } rfl).2.2.1⟩

end Dynamic3
end Open62541

namespace Open62541

namespace Dynamic2

end Dynamic2
end Open62541

namespace Open62541
namespace Dynamic3

end Dynamic3
end Open62541

namespace Open62541

namespace Dynamic3

theorem tempPressStep_fields (sin : ℚ → ℚ) (st : State) :
    (tempPressStep sin st).1.t = st.t + 0.1 ∧
    (tempPressStep sin st).1.rng = { out := st.rng.out, pos := st.rng.pos + 1 } ∧
    (tempPressStep sin st).1.bearingVibration = st.bearingVibration ∧
    (tempPressStep sin st).1.alarmState = st.alarmState :=
  ⟨rfl, rfl, rfl, rfl⟩

end Dynamic3

namespace Dynamic4

end Dynamic4
end Open62541

namespace Open62541

theorem pressNoise_eq (r : Nat) : pressNoise r = (((r % 2001 : Nat) : ℚ) - 1000) / 10000 := by
  unfold pressNoise
  push_cast
  rfl

theorem pressNoise_bounds (r : Nat) : -0.1 ≤ pressNoise r ∧ pressNoise r ≤ 0.1 := by
  rw [pressNoise_eq]
  have h1 : ((r % 2001 : Nat) : ℚ) ≤ 2000 := by
    have : r % 2001 ≤ 2000 := by omega
    exact_mod_cast this
  have h0 : (0 : ℚ) ≤ ((r % 2001 : Nat) : ℚ) := Nat.cast_nonneg _
  constructor <;> norm_num <;> linarith

namespace Dynamic3

theorem vibrationStep_clock (st : State) (cur : Variant) :
    (vibrationStep st cur).1.t = st.t ∧
    valuesWritten NodeId.temp (vibrationStep st cur).2 = [] ∧
    valuesWritten NodeId.press (vibrationStep st cur).2 = [] := by
  unfold vibrationStep
  cases hc : scalarDouble cur with
  | none => exact ⟨rfl, rfl, rfl⟩
  | some x =>
    simp only [rand]
    split_ifs <;> exact ⟨rfl, by simp [valuesWritten], by simp [valuesWritten]⟩

theorem temp_press_written (sin : ℚ → ℚ) (st : State) :
    (updateParameters sin st).1.t = st.t + 0.1 ∧
    valuesWritten NodeId.temp (updateParameters sin st).2 =
      [Variant.double (25 + 5 * sin (st.t + 0.1))] ∧
    ∃ r : Nat, valuesWritten NodeId.press (updateParameters sin st).2 =
      [Variant.double (1 + pressNoise r)] := by
  have hv := vibrationStep_clock st (UA_Server_readValue st.store NodeId.vib Variant.empty)
  refine ⟨?_, ?_,
    ⟨(vibrationStep st (UA_Server_readValue st.store NodeId.vib Variant.empty)).1.rng.out
      (vibrationStep st (UA_Server_readValue st.store NodeId.vib Variant.empty)).1.rng.pos, ?_⟩⟩
  · show (tempPressStep sin _).1.t = _
    rw [(tempPressStep_fields sin _).1, hv.1]
  · rw [updateParameters_writes, valuesWritten_append, hv.2.1, tempPressStep_writes, hv.1]
    simp [valuesWritten]
  · rw [updateParameters_writes, valuesWritten_append, hv.2.2, tempPressStep_writes]
    simp only [valuesWritten, List.nil_append]
    rfl

end Dynamic3

namespace Dynamic2

theorem d2_vibrationStep_clock (st : State) (cur : Variant) :
    (vibrationStep st cur).1.t = st.t ∧
    valuesWritten NodeId.temp (vibrationStep st cur).2 = [] ∧
    valuesWritten NodeId.press (vibrationStep st cur).2 = [] := by
  unfold vibrationStep
  cases hc : scalarDouble cur with
  | none => exact ⟨rfl, rfl, rfl⟩
  | some x => exact ⟨rfl, by simp [valuesWritten], by simp [valuesWritten]⟩

theorem d2_temp_press_written (sin : ℚ → ℚ) (st : State) :
    (updateParameters sin st).1.t = st.t + 0.1 ∧
    valuesWritten NodeId.temp (updateParameters sin st).2 =
      [Variant.double (25 + 5 * sin (st.t + 0.1))] ∧
    ∃ r : Nat, valuesWritten NodeId.press (updateParameters sin st).2 =
      [Variant.double (1 + pressNoise r)] := by
  have hv := d2_vibrationStep_clock st (UA_Server_readValue st.store NodeId.vib Variant.empty)
  unfold updateParameters
  simp only []
  refine ⟨?_, ?_,
    ⟨(vibrationStep st (UA_Server_readValue st.store NodeId.vib Variant.empty)).1.rng.out
      (vibrationStep st (UA_Server_readValue st.store NodeId.vib Variant.empty)).1.rng.pos, ?_⟩⟩
  · show (vibrationStep st _).1.t + 0.1 = _
    rw [hv.1]
  · rw [valuesWritten_append, hv.2.1, d2_tempPressStep_writes, hv.1]
    simp [valuesWritten]
  · rw [valuesWritten_append, hv.2.2, d2_tempPressStep_writes]
    simp only [valuesWritten, List.nil_append]
    rfl

end Dynamic2

namespace Dynamic

theorem d1_tempPressStep_writes (sin : ℚ → ℚ) (st : State) :
    (tempPressStep sin st).2 =
      [(NodeId.temp, Variant.double (25 + 5 * sin (st.t + 0.1))),
       (NodeId.press, Variant.double (1 + pressNoise (st.rng.out st.rng.pos)))] := rfl

theorem d1_degradeStep_clock (st : State) (cur : Variant) :
    (degradeStep st cur).1.t = st.t ∧
    valuesWritten NodeId.temp (degradeStep st cur).2 = [] ∧
    valuesWritten NodeId.press (degradeStep st cur).2 = [] := by
  unfold degradeStep
  cases hc : scalarDouble cur with
  | none => exact ⟨rfl, rfl, rfl⟩
  | some x => exact ⟨rfl, by simp [valuesWritten], by simp [valuesWritten]⟩

theorem d1_temp_press_written (sin : ℚ → ℚ) (st : State) :
    (updateParameters sin st).1.t = st.t + 0.1 ∧
    valuesWritten NodeId.temp (updateParameters sin st).2 =
      [Variant.double (25 + 5 * sin (st.t + 0.1))] ∧
    ∃ r : Nat, valuesWritten NodeId.press (updateParameters sin st).2 =
      [Variant.double (1 + pressNoise r)] := by
  have hv := d1_degradeStep_clock st (UA_Server_readValue st.store NodeId.degrade Variant.empty)
  unfold updateParameters
  simp only []
  refine ⟨?_, ?_,
    ⟨(degradeStep st (UA_Server_readValue st.store NodeId.degrade Variant.empty)).1.rng.out
      (degradeStep st (UA_Server_readValue st.store NodeId.degrade Variant.empty)).1.rng.pos, ?_⟩⟩
  · show (degradeStep st _).1.t + 0.1 = _
    rw [hv.1]
  · rw [valuesWritten_append, hv.2.1, d1_tempPressStep_writes, hv.1]
    simp [valuesWritten]
  · rw [valuesWritten_append, hv.2.2, d1_tempPressStep_writes]
    simp only [valuesWritten, List.nil_append]
    rfl

end Dynamic
end Open62541

namespace Open62541

/-- C13: for every `rand()` output `r` the pressure noise
`(r mod 2001 - 1000) / 10000` lies in `[-0.1, 0.1]`, and every callback of
`dynamic.c`, `dynamic2.c` and `dynamic3.c` writes exactly one pressure value,
`1.0 + noise` for one such output, which lies in `[0.9, 1.1]`. -/
theorem pressure_noise_and_value_bounds (sin : ℚ → ℚ) (r : Nat) (st1 : Dynamic.State)
    (st2 : Dynamic2.State) (st3 : Dynamic3.State) :
    (pressNoise r = (((r % 2001 : Nat) : ℚ) - 1000) / 10000 ∧
      -0.1 ≤ pressNoise r ∧ pressNoise r ≤ 0.1) ∧
    (∃ q : Nat, valuesWritten NodeId.press (Dynamic.updateParameters sin st1).2 =
        [Variant.double (1 + pressNoise q)] ∧
      0.9 ≤ 1 + pressNoise q ∧ 1 + pressNoise q ≤ 1.1) ∧
    (∃ q : Nat, valuesWritten NodeId.press (Dynamic2.updateParameters sin st2).2 =
        [Variant.double (1 + pressNoise q)] ∧
      0.9 ≤ 1 + pressNoise q ∧ 1 + pressNoise q ≤ 1.1) ∧
    (∃ q : Nat, valuesWritten NodeId.press (Dynamic3.updateParameters sin st3).2 =
        [Variant.double (1 + pressNoise q)] ∧
      0.9 ≤ 1 + pressNoise q ∧ 1 + pressNoise q ≤ 1.1) := by
  have hrange : ∀ q : Nat, 0.9 ≤ 1 + pressNoise q ∧ 1 + pressNoise q ≤ 1.1 := by
    intro q
    have hb := pressNoise_bounds q
    norm_num at hb ⊢
    exact ⟨by linarith [hb.1], by linarith [hb.2]⟩
  obtain ⟨q1, h1⟩ := (Dynamic.d1_temp_press_written sin st1).2.2
  obtain ⟨q2, h2⟩ := (Dynamic2.d2_temp_press_written sin st2).2.2
  obtain ⟨q3, h3⟩ := (Dynamic3.temp_press_written sin st3).2.2
  exact ⟨⟨pressNoise_eq r, pressNoise_bounds r⟩, ⟨q1, h1, hrange q1⟩, ⟨q2, h2, hrange q2⟩,
    ⟨q3, h3, hrange q3⟩⟩

end Open62541

namespace Open62541

namespace Dynamic

end Dynamic
end Open62541

namespace Open62541
namespace Dynamic4

theorem frand_lt_one_iff (RAND_MAX r : Nat) (hR : 0 < RAND_MAX) :
    frand RAND_MAX r < 1 ↔ r < RAND_MAX := by
  unfold frand
  have hRq : (0 : ℚ) < (RAND_MAX : ℚ) := by exact_mod_cast hR
  rw [div_lt_one hRq]
  exact Nat.cast_lt

/-- C15 (the code at the failing input): with `RAND_MAX = 2147483647`, when
`rand()` returns `RAND_MAX` the helper `frand` returns exactly 1, which is not
below 1. -/
theorem frand_of_RAND_MAX_is_one :
    frand 2147483647 2147483647 = 1 ∧ ¬ (frand 2147483647 2147483647 < 1) := by
  unfold frand
  norm_num

end Dynamic4
end Open62541
